import Mathlib

/-!
Verification of the transaction-and-balance engine of the Credix personal
finance API (`src/backend/server.py`).

Modelling choices:
* Monetary amounts are rationals (`ℚ`): the Python floats carry exact
  decimal values in every behaviour the spec describes.
* `datetime` values are six-field UTC timestamps; MongoDB compares the
  stored ISO-8601 strings lexicographically, which on the fixed-width UTC
  format coincides with the lexicographic order of the components.
* The MongoDB collections become Lean lists of records; `find_one` is
  `List.find?` and `update_one` updates the first matching record.
* The per-user `total_balance` documents become a function
  `String → ℚ`, and `$inc` is pointwise addition at the user's key.
-/

namespace Credix

/-- The `TransactionType` enum of `server.py` (lines 47-50). -/
inductive TransactionType where
  | income
  | expense
  | transfer
deriving DecidableEq, Repr

/-- A UTC timestamp: the components of a `datetime` value.  Comparison of
the stored ISO strings is lexicographic on these components. -/
structure DateTime where
  year : ℕ
  month : ℕ
  day : ℕ
  hour : ℕ
  minute : ℕ
  second : ℕ
deriving DecidableEq, Repr

/-- Boolean strict comparison of timestamps, mirroring the `$lt` string
comparison MongoDB performs on the ISO-8601 encodings. -/
def DateTime.ltb (a b : DateTime) : Bool :=
  if a.year ≠ b.year then decide (a.year < b.year)
  else if a.month ≠ b.month then decide (a.month < b.month)
  else if a.day ≠ b.day then decide (a.day < b.day)
  else if a.hour ≠ b.hour then decide (a.hour < b.hour)
  else if a.minute ≠ b.minute then decide (a.minute < b.minute)
  else decide (a.second < b.second)

/-- Boolean `$gte`-style comparison: `a ≤ b` iff `¬ (b < a)`. -/
def DateTime.leb (a b : DateTime) : Bool :=
  !(DateTime.ltb b a)

/-- Propositional strict lexicographic order on timestamps, written out
independently of the executable comparison. -/
def DateTime.Lt (a b : DateTime) : Prop :=
  a.year < b.year ∨ (a.year = b.year ∧
    (a.month < b.month ∨ (a.month = b.month ∧
      (a.day < b.day ∨ (a.day = b.day ∧
        (a.hour < b.hour ∨ (a.hour = b.hour ∧
          (a.minute < b.minute ∨ (a.minute = b.minute ∧
            a.second < b.second)))))))))

/-- Propositional order: strictly earlier or equal. -/
def DateTime.Le (a b : DateTime) : Prop :=
  DateTime.Lt a b ∨ a = b

/-- A `Transaction` document (model at lines 111-135 of `server.py`). -/
structure Transaction where
  id : String
  user_id : String
  amount : ℚ
  description : String
  type : TransactionType
  category_id : Option String
  transaction_date : DateTime
  notes : Option String
  is_active : Bool
deriving DecidableEq, Repr

/-- A `Category` document (model at lines 88-108 of `server.py`); only the
fields the transaction engine reads. -/
structure Category where
  id : String
  user_id : String
  name : String
  is_active : Bool
deriving DecidableEq, Repr

/-- The store the transaction engine touches: the `transactions` and
`categories` collections plus each user's `total_balance` field. -/
structure State where
  transactions : List Transaction
  categories : List Category
  balances : String → ℚ

/-- Errors raised by the transaction routes. -/
inductive ApiError where
  | CategoryNotFound
  | TransactionNotFound
deriving DecidableEq, Repr

/-- The `TransactionCreate` request payload (lines 119-120). -/
structure TransactionCreate where
  amount : ℚ
  description : String
  type : TransactionType
  category_id : Option String
  transaction_date : DateTime
  notes : Option String
deriving DecidableEq, Repr

/-- The `TransactionUpdate` request payload (lines 122-128): every field
optional, `none` meaning "not supplied". -/
structure TransactionUpdate where
  amount : Option ℚ
  description : Option String
  type : Option TransactionType
  category_id : Option String
  transaction_date : Option DateTime
  notes : Option String
deriving DecidableEq, Repr

/-- Spec-side signed effect of a transaction on the balance:
income adds the amount, expense subtracts it, transfer is neutral. -/
def effect (amount : ℚ) : TransactionType → ℚ
  | TransactionType.income => amount
  | TransactionType.expense => -amount
  | TransactionType.transfer => 0

/-- Balance change computed by `create_transaction` (lines 473-475):
`amount if income else -amount`, then overridden to `0` for transfers. -/
def createBalanceChange (amount : ℚ) (ty : TransactionType) : ℚ :=
  let c := if ty = TransactionType.income then amount else -amount
  if ty = TransactionType.transfer then 0 else c

/-- Balance effect expression of `update_transaction` (lines 521-522):
`amount if income else (-amount if expense else 0)`. -/
def balanceEffect (amount : ℚ) (ty : TransactionType) : ℚ :=
  if ty = TransactionType.income then amount
  else if ty = TransactionType.expense then -amount else 0

/-- Balance reversal of `delete_transaction` (line 551):
`-amount if income else (amount if expense else 0)`. -/
def balanceReversal (amount : ℚ) (ty : TransactionType) : ℚ :=
  if ty = TransactionType.income then -amount
  else if ty = TransactionType.expense then amount else 0

/-- The `find_one` filter used by `update_transaction` and
`delete_transaction` (lines 493-496 and 540-543): same id, owned by the
requesting user, and still active. -/
def txMatch (uid tid : String) (t : Transaction) : Bool :=
  decide (t.id = tid ∧ t.user_id = uid ∧ t.is_active = true)

/-- Mongo `update_one` on a collection: rewrite the first record matching the
filter, leave everything else in place. -/
def updateFirst (p : Transaction → Bool) (f : Transaction → Transaction) :
    List Transaction → List Transaction
  | [] => []
  | t :: ts => if p t then f t :: ts else t :: updateFirst p f ts

/-- Category validation of `create_transaction` (lines 451-459).  The
gate at line 452 is `if transaction_data.category_id:` — Python
truthiness — so both `None` and the empty string skip validation
entirely; only a non-empty id must name an active category owned by the
caller. -/
def categoryOk (s : State) (uid : String) : Option String → Bool
  | none => true
  | some cid =>
      if cid = "" then true
      else
        (s.categories.find? fun c =>
          decide (c.id = cid ∧ c.user_id = uid ∧ c.is_active = true)).isSome

/-- Route `POST /transactions` (`create_transaction`, lines 445-484):
validate the supplied category, insert the transaction with
`is_active = true`, and `$inc` the caller's balance.  `newId` stands for
the generated `uuid4` id. -/
def create_transaction (s : State) (uid newId : String) (d : TransactionCreate) :
    Except ApiError (State × Transaction) :=
  if categoryOk s uid d.category_id then
    let t : Transaction :=
      { id := newId, user_id := uid, amount := d.amount,
        description := d.description, type := d.type,
        category_id := d.category_id,
        transaction_date := d.transaction_date, notes := d.notes,
        is_active := true }
    let balance_change := createBalanceChange t.amount t.type
    Except.ok
      ({ transactions := s.transactions ++ [t],
         categories := s.categories,
         balances := fun u =>
           if u = uid then s.balances u + balance_change else s.balances u },
       t)
  else Except.error ApiError.CategoryNotFound

/-- Partial-update semantics of `update_transaction` (line 505): apply
exactly the supplied (non-`None`) fields over the stored document. -/
def applyUpdate (t : Transaction) (d : TransactionUpdate) : Transaction :=
  { t with
    amount := d.amount.getD t.amount,
    description := d.description.getD t.description,
    type := d.type.getD t.type,
    category_id :=
      match d.category_id with
      | some c => some c
      | none => t.category_id,
    transaction_date := d.transaction_date.getD t.transaction_date,
    notes :=
      match d.notes with
      | some n => some n
      | none => t.notes }

/-- Route `PUT /transactions/id` (`update_transaction`, lines 486-532): look up
the caller's active transaction, apply the supplied fields, and `$inc`
the balance by `new_effect - old_effect`.  (The code skips the `$inc`
when the adjustment is zero; adding zero gives the same state.) -/
def update_transaction (s : State) (uid tid : String) (d : TransactionUpdate) :
    Except ApiError (State × Transaction) :=
  match s.transactions.find? (txMatch uid tid) with
  | none => Except.error ApiError.TransactionNotFound
  | some t =>
      let t' := applyUpdate t d
      let balance_adjustment :=
        balanceEffect t'.amount t'.type - balanceEffect t.amount t.type
      Except.ok
        ({ transactions :=
             updateFirst (fun x => decide (x.id = tid))
               (fun x => applyUpdate x d) s.transactions,
           categories := s.categories,
           balances := fun u =>
             if u = uid then s.balances u + balance_adjustment
             else s.balances u },
         t')

/-- Route `DELETE /transactions/id` (`delete_transaction`, lines 534-564): look
up the caller's active transaction, flip `is_active` to false, and `$inc`
the balance by the reversal of the stored effect. -/
def delete_transaction (s : State) (uid tid : String) :
    Except ApiError State :=
  match s.transactions.find? (txMatch uid tid) with
  | none => Except.error ApiError.TransactionNotFound
  | some t =>
      let balance_reversal := balanceReversal t.amount t.type
      Except.ok
        { transactions :=
            updateFirst (fun x => decide (x.id = tid))
              (fun x => { x with is_active := false }) s.transactions,
          categories := s.categories,
          balances := fun u =>
            if u = uid then s.balances u + balance_reversal
            else s.balances u }

/-- First instant of a month (`datetime(year, month, 1)`, line 580). -/
def monthStart (y m : ℕ) : DateTime :=
  { year := y, month := m, day := 1, hour := 0, minute := 0, second := 0 }

/-- Exclusive end of the month window (lines 581-584): December rolls
into January of the next year. -/
def monthEnd (y m : ℕ) : DateTime :=
  if m = 12 then
    { year := y + 1, month := 1, day := 1, hour := 0, minute := 0, second := 0 }
  else
    { year := y, month := m + 1, day := 1, hour := 0, minute := 0, second := 0 }

/-- The transactions selected by `get_financial_summary` (lines 587-594):
the caller's active transactions dated in `[start, end)`. -/
def monthTxs (s : State) (uid : String) (m y : ℕ) : List Transaction :=
  s.transactions.filter fun t =>
    decide (t.user_id = uid ∧ t.is_active = true) &&
      DateTime.leb (monthStart y m) t.transaction_date &&
      DateTime.ltb t.transaction_date (monthEnd y m)

/-- The `FinancialSummary` response model (lines 141-147). -/
structure FinancialSummary where
  total_income : ℚ
  total_expense : ℚ
  net_balance : ℚ
  transaction_count : ℕ
  month : ℕ
  year : ℕ
deriving DecidableEq, Repr

/-- Route `GET /reports/summary` (`get_financial_summary`, lines 568-606) with
the month and year already resolved (the route defaults them to the
current UTC month/year before this logic runs). -/
def get_financial_summary (s : State) (uid : String) (m y : ℕ) :
    FinancialSummary :=
  let transactions := monthTxs s uid m y
  let total_income :=
    ((transactions.filter fun t => decide (t.type = TransactionType.income)).map
      (fun t => t.amount)).sum
  let total_expense :=
    ((transactions.filter fun t => decide (t.type = TransactionType.expense)).map
      (fun t => t.amount)).sum
  { total_income := total_income,
    total_expense := total_expense,
    net_balance := total_income - total_expense,
    transaction_count := transactions.length,
    month := m, year := y }

/-- The `CategoryExpense` response model (lines 149-154). -/
structure CategoryExpense where
  category_id : Option String
  category_name : String
  total_amount : ℚ
  transaction_count : ℕ
  percentage : ℚ
deriving DecidableEq, Repr

/-- The `ExpenseByCategory` response model (lines 156-158). -/
structure ExpenseByCategory where
  expenses : List CategoryExpense
  total_expense : ℚ
deriving DecidableEq, Repr

/-- The expense transactions selected by `get_expenses_by_category`
(lines 627-635): the caller's active expenses dated in the window. -/
def expenseTxs (s : State) (uid : String) (m y : ℕ) : List Transaction :=
  s.transactions.filter fun t =>
    decide (t.user_id = uid ∧ t.is_active = true ∧
      t.type = TransactionType.expense) &&
      DateTime.leb (monthStart y m) t.transaction_date &&
      DateTime.ltb t.transaction_date (monthEnd y m)

/-- One step of the `category_totals` dict accumulation (lines 645-651):
merge the transaction into the bucket of its `category_id`, appending a
new bucket at the end on first occurrence (Python dicts preserve
insertion order).  Each bucket is `(category_id, amount, count)`. -/
def addTx (acc : List (Option String × ℚ × ℕ)) (t : Transaction) :
    List (Option String × ℚ × ℕ) :=
  if acc.any (fun g => decide (g.1 = t.category_id)) then
    acc.map fun g =>
      if g.1 = t.category_id then (g.1, g.2.1 + t.amount, g.2.2 + 1) else g
  else acc ++ [(t.category_id, t.amount, 1)]

/-- The `category_totals` dict after the grouping loop. -/
def groupTotals (s : State) (uid : String) (m y : ℕ) :
    List (Option String × ℚ × ℕ) :=
  (expenseTxs s uid m y).foldl addTx []

/-- Value `total_expense` (line 653): the sum over all bucket amounts. -/
def totalExpense (s : State) (uid : String) (m y : ℕ) : ℚ :=
  ((groupTotals s uid m y).map fun g => g.2.1).sum

/-- Name resolution of line 659: `category_map` is built from ALL of the
caller's categories (lines 638-642 apply no `is_active` filter), and a
missing key falls back to the sentinel name. -/
def categoryName (cats : List Category) (uid : String)
    (cid : Option String) : String :=
  match cid with
  | none => "Sem categoria"
  | some c =>
      match (cats.filter fun k => decide (k.user_id = uid)).find?
          (fun k => decide (k.id = c)) with
      | some k => k.name
      | none => "Sem categoria"

/-- The `expenses` list before sorting (lines 655-663). -/
def rawExpenses (s : State) (uid : String) (m y : ℕ) : List CategoryExpense :=
  (groupTotals s uid m y).map fun g =>
    { category_id := g.1,
      category_name := categoryName s.categories uid g.1,
      total_amount := g.2.1,
      transaction_count := g.2.2,
      percentage :=
        if 0 < totalExpense s uid m y then
          g.2.1 / totalExpense s uid m y * 100
        else 0 }

/-- Stable insertion into a list sorted by `total_amount` descending:
the element goes in front of the first entry it is greater than or equal
to, so entries already present keep their relative order and an equal
newcomer from the left stays in front. -/
def insertDesc (x : CategoryExpense) : List CategoryExpense → List CategoryExpense
  | [] => [x]
  | y :: ys =>
      if y.total_amount ≤ x.total_amount then x :: y :: ys
      else y :: insertDesc x ys

/-- Stable sort by `total_amount` descending, modelling Python's stable
`list.sort(key=..., reverse=True)` at line 666. -/
def sortDesc : List CategoryExpense → List CategoryExpense
  | [] => []
  | x :: xs => insertDesc x (sortDesc xs)

/-- Route `GET /reports/by-category` (`get_expenses_by_category`,
lines 608-668) with the month and year already resolved. -/
def get_expenses_by_category (s : State) (uid : String) (m y : ℕ) :
    ExpenseByCategory :=
  { expenses := sortDesc (rawExpenses s uid m y),
    total_expense := totalExpense s uid m y }

/-- One client-visible mutation of the transaction ledger, tagged with
the authenticated user performing it; `newId` of a create stands for the
freshly generated `uuid4`. -/
inductive Op where
  | create (uid newId : String) (d : TransactionCreate)
  | update (uid tid : String) (d : TransactionUpdate)
  | delete (uid tid : String)

/-- Run one operation against the store; a request that errors commits
nothing (the handlers raise before or instead of writing). -/
def applyOp (s : State) : Op → State
  | Op.create uid newId d =>
      match create_transaction s uid newId d with
      | Except.ok (s', _) => s'
      | Except.error _ => s
  | Op.update uid tid d =>
      match update_transaction s uid tid d with
      | Except.ok (s', _) => s'
      | Except.error _ => s
  | Op.delete uid tid =>
      match delete_transaction s uid tid with
      | Except.ok s' => s'
      | Except.error _ => s

/-- Run a sequence of operations left to right. -/
def run (s : State) (ops : List Op) : State :=
  ops.foldl applyOp s

/-- A create's generated id never collides with a stored transaction id
(`uuid4` freshness); updates and deletes need nothing. -/
def opFresh (s : State) : Op → Prop
  | Op.create _ newId _ => ∀ t ∈ s.transactions, t.id ≠ newId
  | Op.update _ _ _ => True
  | Op.delete _ _ => True

instance (s : State) (op : Op) : Decidable (opFresh s op) := by
  cases op <;> simp only [opFresh] <;> infer_instance

/-- Every create in the sequence uses an id fresh at its moment. -/
def FreshRun : State → List Op → Prop
  | _, [] => True
  | s, op :: ops => opFresh s op ∧ FreshRun (applyOp s op) ops

/-- Stored transaction ids are pairwise distinct (`uuid4` keys). -/
def idsNodup (s : State) : Prop :=
  (s.transactions.map fun t => t.id).Nodup

instance (s : State) : Decidable (idsNodup s) := by
  unfold idsNodup
  infer_instance

/-- Sum of signed effects of a user's active transactions: the value the
spec says `total_balance` must always equal. -/
def userEffects (s : State) (u : String) : ℚ :=
  ((s.transactions.filter fun t =>
      decide (t.user_id = u ∧ t.is_active = true)).map
    fun t => effect t.amount t.type).sum

/-- The create-time balance change is the spec's signed effect. -/
lemma createBalanceChange_eq_effect (a : ℚ) (ty : TransactionType) :
    createBalanceChange a ty = effect a ty := by
  cases ty <;> simp [createBalanceChange, effect]

/-- The update-time balance effect is the spec's signed effect. -/
lemma balanceEffect_eq_effect (a : ℚ) (ty : TransactionType) :
    balanceEffect a ty = effect a ty := by
  cases ty <;> simp [balanceEffect, effect]

/-- The delete-time reversal is the negation of the spec's effect. -/
lemma balanceReversal_eq_neg_effect (a : ℚ) (ty : TransactionType) :
    balanceReversal a ty = -(effect a ty) := by
  cases ty <;> simp [balanceReversal, effect]

/-- The executable strict comparison decides the lexicographic order. -/
lemma DateTime.ltb_iff (a b : DateTime) :
    DateTime.ltb a b = true ↔ DateTime.Lt a b := by
  cases a
  cases b
  simp only [DateTime.ltb, DateTime.Lt]
  split_ifs <;> simp only [decide_eq_true_eq] <;> omega

/-- The executable non-strict comparison decides `Le`. -/
lemma DateTime.leb_iff (a b : DateTime) :
    DateTime.leb a b = true ↔ DateTime.Le a b := by
  cases a
  cases b
  simp only [DateTime.leb, DateTime.ltb, DateTime.Lt, DateTime.Le,
    DateTime.mk.injEq, Bool.not_eq_true']
  split_ifs <;> simp only [decide_eq_false_iff_not] <;> omega

/-- Signed contribution of one stored transaction to user `u`'s balance:
its effect when it is `u`'s and active, `0` otherwise. -/
def contrib (u : String) (t : Transaction) : ℚ :=
  if t.user_id = u ∧ t.is_active = true then effect t.amount t.type else 0

/-- Sum of contributions over a list of stored transactions. -/
def sumContrib (u : String) (l : List Transaction) : ℚ :=
  (l.map (contrib u)).sum

lemma sumContrib_nil (u : String) : sumContrib u [] = 0 := rfl

lemma sumContrib_cons (u : String) (t : Transaction) (l : List Transaction) :
    sumContrib u (t :: l) = contrib u t + sumContrib u l := by
  simp [sumContrib]

lemma sumContrib_append (u : String) (l₁ l₂ : List Transaction) :
    sumContrib u (l₁ ++ l₂) = sumContrib u l₁ + sumContrib u l₂ := by
  simp [sumContrib]

/-- The authoritative sum of active effects is the contribution sum. -/
lemma userEffects_eq_sumContrib (s : State) (u : String) :
    userEffects s u = sumContrib u s.transactions := by
  unfold userEffects sumContrib
  induction s.transactions with
  | nil => simp
  | cons h l ih =>
      rw [List.filter_cons]
      by_cases hp : h.user_id = u ∧ h.is_active = true
      · rw [if_pos (by simpa using hp), List.map_cons, List.sum_cons,
          List.map_cons, List.sum_cons, ih]
        simp only [contrib, if_pos hp]
      · rw [if_neg (by simpa using hp), List.map_cons, List.sum_cons, ih]
        simp only [contrib, if_neg hp, zero_add]

/-- Rewriting the first record with a given id changes the contribution
sum by swapping that record's contribution, provided the lookup found a
record with that id and ids are pairwise distinct. -/
lemma updateFirst_sumContrib (uid tid : String) (f : Transaction → Transaction)
    (l : List Transaction) (t : Transaction) (u : String)
    (hfind : l.find? (txMatch uid tid) = some t)
    (hnd : (l.map fun x => x.id).Nodup) :
    sumContrib u (updateFirst (fun x => decide (x.id = tid)) f l) =
      sumContrib u l - contrib u t + contrib u (f t) := by
  induction l with
  | nil => simp at hfind
  | cons h rest ih =>
      simp only [List.map_cons, List.nodup_cons] at hnd
      by_cases hid : h.id = tid
      · have hmatch : txMatch uid tid h = true := by
          by_contra hmf
          rw [List.find?_cons_of_neg _ hmf] at hfind
          have htmem : t ∈ rest := List.mem_of_find?_eq_some hfind
          have htm : txMatch uid tid t = true := List.find?_some hfind
          have htid : t.id = tid := by
            simp only [txMatch, decide_eq_true_eq] at htm
            exact htm.1
          exact hnd.1 (by
            rw [hid, ← htid]
            exact List.mem_map_of_mem (fun x => x.id) htmem)
        rw [List.find?_cons_of_pos _ hmatch] at hfind
        have ht : h = t := by injection hfind
        have hstep : updateFirst (fun x => decide (x.id = tid)) f (h :: rest)
            = f h :: rest := by
          simp [updateFirst, hid]
        rw [hstep, ← ht, sumContrib_cons, sumContrib_cons]
        ring
      · have hmf : ¬ txMatch uid tid h = true := by
          simp [txMatch, hid]
        rw [List.find?_cons_of_neg _ hmf] at hfind
        have hstep : updateFirst (fun x => decide (x.id = tid)) f (h :: rest)
            = h :: updateFirst (fun x => decide (x.id = tid)) f rest := by
          simp [updateFirst, hid]
        rw [hstep, sumContrib_cons, sumContrib_cons, ih hfind hnd.2]
        ring

/-- Rewriting records in place with an id-preserving function does not
change the list of stored ids. -/
lemma updateFirst_map_id (p : Transaction → Bool) (f : Transaction → Transaction)
    (l : List Transaction) (hf : ∀ x, (f x).id = x.id) :
    (updateFirst p f l).map (fun x => x.id) = l.map (fun x => x.id) := by
  induction l with
  | nil => rfl
  | cons h rest ih =>
      by_cases hp : p h = true
      · simp [updateFirst, hp, hf]
      · simp only [updateFirst, if_neg hp, List.map_cons, ih]

/-- Inversion of a successful create: the inserted document and the new
store, read off `create_transaction`. -/
lemma create_shape (s : State) (uid newId : String) (d : TransactionCreate)
    (s' : State) (t : Transaction)
    (h : create_transaction s uid newId d = Except.ok (s', t)) :
    t = { id := newId, user_id := uid, amount := d.amount,
          description := d.description, type := d.type,
          category_id := d.category_id,
          transaction_date := d.transaction_date, notes := d.notes,
          is_active := true } ∧
    s'.transactions = s.transactions ++ [t] ∧
    s'.categories = s.categories ∧
    s'.balances = fun u =>
      if u = uid then s.balances u + createBalanceChange d.amount d.type
      else s.balances u := by
  unfold create_transaction at h
  split at h
  · injection h with h'
    injection h' with h1 h2
    subst h2
    refine ⟨rfl, ?_, ?_, ?_⟩ <;> rw [← h1]
  · exact absurd h (by simp)

/-- Inversion of a successful update: the looked-up document, the
returned document, and the new store. -/
lemma update_shape (s : State) (uid tid : String) (d : TransactionUpdate)
    (s' : State) (t' : Transaction)
    (h : update_transaction s uid tid d = Except.ok (s', t')) :
    ∃ t, s.transactions.find? (txMatch uid tid) = some t ∧
      t' = applyUpdate t d ∧
      s'.transactions = updateFirst (fun x => decide (x.id = tid))
        (fun x => applyUpdate x d) s.transactions ∧
      s'.categories = s.categories ∧
      s'.balances = fun u =>
        if u = uid then
          s.balances u +
            (balanceEffect (applyUpdate t d).amount (applyUpdate t d).type -
              balanceEffect t.amount t.type)
        else s.balances u := by
  unfold update_transaction at h
  rcases hm : s.transactions.find? (txMatch uid tid) with _ | t
  · rw [hm] at h
    exact absurd h (by simp)
  · rw [hm] at h
    injection h with h'
    injection h' with h1 h2
    subst h2
    exact ⟨t, rfl, rfl, by rw [← h1], by rw [← h1], by rw [← h1]⟩

/-- Inversion of a successful soft-delete: the looked-up document and
the new store. -/
lemma delete_shape (s : State) (uid tid : String) (s' : State)
    (h : delete_transaction s uid tid = Except.ok s') :
    ∃ t, s.transactions.find? (txMatch uid tid) = some t ∧
      s'.transactions = updateFirst (fun x => decide (x.id = tid))
        (fun x => { x with is_active := false }) s.transactions ∧
      s'.categories = s.categories ∧
      s'.balances = fun u =>
        if u = uid then s.balances u + balanceReversal t.amount t.type
        else s.balances u := by
  unfold delete_transaction at h
  rcases hm : s.transactions.find? (txMatch uid tid) with _ | t
  · rw [hm] at h
    exact absurd h (by simp)
  · rw [hm] at h
    injection h with h1
    exact ⟨t, rfl, by rw [← h1], by rw [← h1], by rw [← h1]⟩

/-- One ledger operation preserves distinctness of ids and the balance
invariant for every user. -/
lemma applyOp_preserves (s : State) (op : Op)
    (hnd : idsNodup s) (hf : opFresh s op)
    (hb : ∀ u, s.balances u = userEffects s u) :
    idsNodup (applyOp s op) ∧
      ∀ u, (applyOp s op).balances u = userEffects (applyOp s op) u := by
  cases op with
  | create uid newId d =>
      rcases hc : create_transaction s uid newId d with e | p
      · simp only [applyOp, hc]
        exact ⟨hnd, hb⟩
      · rcases p with ⟨s', t⟩
        simp only [applyOp, hc]
        obtain ⟨ht, htx, -, hbal⟩ := create_shape s uid newId d s' t hc
        have hids : s'.transactions.map (fun x => x.id) =
            s.transactions.map (fun x => x.id) ++ [newId] := by
          rw [htx]
          simp [ht]
        constructor
        · unfold idsNodup
          rw [hids, List.nodup_append]
          refine ⟨hnd, List.nodup_singleton newId, ?_⟩
          intro a ha hmem
          rcases List.mem_map.mp ha with ⟨x, hx, rfl⟩
          simp only [List.mem_singleton] at hmem
          exact hf x hx hmem
        · intro u
          have heff : userEffects s' u = userEffects s u + contrib u t := by
            rw [userEffects_eq_sumContrib, userEffects_eq_sumContrib, htx,
              sumContrib_append, sumContrib_cons, sumContrib_nil]
            ring
          have htu : t.user_id = uid := by rw [ht]
          have hta : t.is_active = true := by rw [ht]
          have htam : t.amount = d.amount := by rw [ht]
          have htty : t.type = d.type := by rw [ht]
          rw [heff]
          simp only [hbal]
          by_cases hu : u = uid
          · rw [if_pos hu, hb u]
            have hct : contrib u t = effect t.amount t.type := by
              simp only [contrib]
              rw [if_pos ⟨by rw [htu, hu], hta⟩]
            rw [hct, htam, htty, createBalanceChange_eq_effect]
          · rw [if_neg hu, hb u]
            have hct : contrib u t = 0 := by
              simp only [contrib]
              rw [if_neg]
              intro hcon
              exact hu (htu ▸ hcon.1).symm
            rw [hct, add_zero]
  | update uid tid d =>
      rcases hc : update_transaction s uid tid d with e | p
      · simp only [applyOp, hc]
        exact ⟨hnd, hb⟩
      · rcases p with ⟨s', t'⟩
        simp only [applyOp, hc]
        obtain ⟨t, hfind, -, htx, -, hbal⟩ := update_shape s uid tid d s' t' hc
        have hmatch : txMatch uid tid t = true := List.find?_some hfind
        simp only [txMatch, decide_eq_true_eq] at hmatch
        have hidpres : ∀ x : Transaction, (applyUpdate x d).id = x.id :=
          fun x => rfl
        constructor
        · unfold idsNodup
          rw [htx, updateFirst_map_id _ _ _ hidpres]
          exact hnd
        · intro u
          have heff : userEffects s' u =
              userEffects s u - contrib u t + contrib u (applyUpdate t d) := by
            rw [userEffects_eq_sumContrib, userEffects_eq_sumContrib, htx]
            exact updateFirst_sumContrib uid tid _ s.transactions t u hfind hnd
          rw [heff]
          simp only [hbal]
          by_cases hu : u = uid
          · rw [if_pos hu, hb u]
            have hct : contrib u t = effect t.amount t.type := by
              simp only [contrib]
              rw [if_pos ⟨by rw [hmatch.2.1, hu], hmatch.2.2⟩]
            have hct' : contrib u (applyUpdate t d) =
                effect (applyUpdate t d).amount (applyUpdate t d).type := by
              simp only [contrib]
              rw [if_pos ⟨by
                have : (applyUpdate t d).user_id = t.user_id := rfl
                rw [this, hmatch.2.1, hu], by
                have : (applyUpdate t d).is_active = t.is_active := rfl
                rw [this, hmatch.2.2]⟩]
            rw [hct, hct', balanceEffect_eq_effect, balanceEffect_eq_effect]
            ring
          · rw [if_neg hu, hb u]
            have hct : contrib u t = 0 := by
              simp only [contrib]
              rw [if_neg]
              intro hcon
              exact hu (hmatch.2.1 ▸ hcon.1).symm
            have hct' : contrib u (applyUpdate t d) = 0 := by
              simp only [contrib]
              rw [if_neg]
              intro hcon
              have huid : (applyUpdate t d).user_id = t.user_id := rfl
              rw [huid, hmatch.2.1] at hcon
              exact hu hcon.1.symm
            rw [hct, hct']
            ring
  | delete uid tid =>
      rcases hc : delete_transaction s uid tid with e | s'
      · simp only [applyOp, hc]
        exact ⟨hnd, hb⟩
      · simp only [applyOp, hc]
        obtain ⟨t, hfind, htx, -, hbal⟩ := delete_shape s uid tid s' hc
        have hmatch : txMatch uid tid t = true := List.find?_some hfind
        simp only [txMatch, decide_eq_true_eq] at hmatch
        have hidpres : ∀ x : Transaction,
            ({ x with is_active := false } : Transaction).id = x.id :=
          fun x => rfl
        constructor
        · unfold idsNodup
          rw [htx, updateFirst_map_id _ _ _ hidpres]
          exact hnd
        · intro u
          have heff : userEffects s' u =
              userEffects s u - contrib u t +
                contrib u { t with is_active := false } := by
            rw [userEffects_eq_sumContrib, userEffects_eq_sumContrib, htx]
            exact updateFirst_sumContrib uid tid _ s.transactions t u hfind hnd
          have hdead : contrib u { t with is_active := false } = 0 := by
            simp [contrib]
          rw [heff, hdead]
          simp only [hbal]
          by_cases hu : u = uid
          · rw [if_pos hu, hb u]
            have hct : contrib u t = effect t.amount t.type := by
              simp only [contrib]
              rw [if_pos ⟨by rw [hmatch.2.1, hu], hmatch.2.2⟩]
            rw [hct, balanceReversal_eq_neg_effect]
            ring
          · rw [if_neg hu, hb u]
            have hct : contrib u t = 0 := by
              simp only [contrib]
              rw [if_neg]
              intro hcon
              exact hu (hmatch.2.1 ▸ hcon.1).symm
            rw [hct]
            ring

/-- A whole run of ledger operations preserves distinctness of ids and
the balance invariant. -/
lemma run_preserves (ops : List Op) :
    ∀ s : State, idsNodup s → FreshRun s ops →
      (∀ u, s.balances u = userEffects s u) →
      idsNodup (run s ops) ∧
        ∀ u, (run s ops).balances u = userEffects (run s ops) u := by
  induction ops with
  | nil => exact fun s hnd _ hb => ⟨hnd, hb⟩
  | cons op ops ih =>
      intro s hnd hfr hb
      obtain ⟨hop, hrest⟩ := hfr
      obtain ⟨hnd', hb'⟩ := applyOp_preserves s op hnd hop hb
      exact ih (applyOp s op) hnd' hrest hb'

/-- Lookup skips a prefix in which nothing matches. -/
lemma find?_append_of_none {p : Transaction → Bool} {l₁ : List Transaction}
    (l₂ : List Transaction) (h : l₁.find? p = none) :
    (l₁ ++ l₂).find? p = l₂.find? p := by
  induction l₁ with
  | nil => rfl
  | cons a l ih =>
      cases hpa : p a with
      | false =>
          rw [List.find?_cons_of_neg _ (by simp [hpa])] at h
          rw [List.cons_append, List.find?_cons_of_neg _ (by simp [hpa])]
          exact ih h
      | true =>
          rw [List.find?_cons_of_pos _ hpa] at h
          exact absurd h (by simp)

/-- Fixture timestamp used by the concrete witnesses. -/
def exDate : DateTime :=
  { year := 2024, month := 1, day := 15, hour := 12, minute := 0, second := 0 }

/-- Fixture: the empty store with all balances zero. -/
def exEmpty : State :=
  { transactions := [], categories := [], balances := fun _ => 0 }

/-- C1: For every sequence of transaction create, update, and soft-delete
operations performed for a user (starting from a user with
`total_balance` equal to the sum of effects of their active
transactions), the user's `total_balance` after the sequence equals the
sum of `effect(amount, type)` over exactly those of the user's
transactions whose `is_active` flag is true at the end of the sequence.
Stored ids are assumed pairwise distinct and each create's generated id
fresh, as `uuid4` guarantees. -/
theorem C1_balance_invariant (s : State) (ops : List Op) (u : String)
    (hnd : idsNodup s) (hfr : FreshRun s ops)
    (hb : ∀ v, s.balances v = userEffects s v) :
    (run s ops).balances u = userEffects (run s ops) u :=
  (run_preserves ops s hnd hfr hb).2 u

/-- Fixture operation sequence: create an income of 5, update it to an
expense of 7, then soft-delete it. -/
def opsC1 : List Op :=
  [Op.create "alice" "t1"
    { amount := 5, description := "pay", type := TransactionType.income,
      category_id := none, transaction_date := exDate, notes := none },
   Op.update "alice" "t1"
    { amount := some 7, description := none,
      type := some TransactionType.expense, category_id := none,
      transaction_date := none, notes := none },
   Op.delete "alice" "t1"]

/-- Witness for C1 at a concrete three-operation run. -/
theorem C1_balance_invariant_witness :
    idsNodup exEmpty ∧ FreshRun exEmpty opsC1 ∧
      (∀ v, exEmpty.balances v = userEffects exEmpty v) ∧
      (run exEmpty opsC1).balances "alice" =
        userEffects (run exEmpty opsC1) "alice" :=
  ⟨by decide, ⟨by decide, trivial, trivial, trivial⟩,
   fun v => rfl,
   C1_balance_invariant exEmpty opsC1 "alice" (by decide)
     ⟨by decide, trivial, trivial, trivial⟩ (fun v => rfl)⟩

/-- C2: For every successful update of an existing active transaction,
the change applied to the user's `total_balance` equals
`new_effect - old_effect`, where the old effect is computed from the
stored amount/type and the new effect from the document after the
supplied fields are applied. -/
theorem C2_update_balance_adjustment (s : State) (uid tid : String)
    (d : TransactionUpdate) (t : Transaction)
    (hfind : s.transactions.find? (txMatch uid tid) = some t) :
    ∃ s' t', update_transaction s uid tid d = Except.ok (s', t') ∧
      t' = applyUpdate t d ∧
      s'.balances uid - s.balances uid =
        effect t'.amount t'.type - effect t.amount t.type := by
  unfold update_transaction
  rw [hfind]
  refine ⟨_, _, rfl, rfl, ?_⟩
  simp [balanceEffect_eq_effect]

/-- Fixture transaction: alice's stored income of 100.50. -/
def txC2 : Transaction :=
  { id := "t1", user_id := "alice", amount := 201 / 2,
    description := "salary", type := TransactionType.income,
    category_id := none, transaction_date := exDate, notes := none,
    is_active := true }

/-- Fixture store holding only `txC2`, with the matching balance. -/
def stateC2 : State :=
  { transactions := [txC2], categories := [],
    balances := fun _ => 201 / 2 }

/-- Witness for C2: changing the amount from 100.50 to 150.75 adjusts
the balance by the effect difference, which is exactly +50.25; changing
the type to expense with the amount unchanged gives exactly -201.00. -/
theorem C2_update_balance_adjustment_witness :
    (stateC2.transactions.find? (txMatch "alice" "t1") = some txC2) ∧
    (∃ s' t', update_transaction stateC2 "alice" "t1"
        { amount := some (603 / 4), description := none, type := none,
          category_id := none, transaction_date := none, notes := none } =
          Except.ok (s', t') ∧
      t' = applyUpdate txC2
        { amount := some (603 / 4), description := none, type := none,
          category_id := none, transaction_date := none, notes := none } ∧
      s'.balances "alice" - stateC2.balances "alice" =
        effect t'.amount t'.type - effect txC2.amount txC2.type) ∧
    (∃ s' t', update_transaction stateC2 "alice" "t1"
        { amount := none, description := none,
          type := some TransactionType.expense, category_id := none,
          transaction_date := none, notes := none } =
          Except.ok (s', t') ∧
      t' = applyUpdate txC2
        { amount := none, description := none,
          type := some TransactionType.expense, category_id := none,
          transaction_date := none, notes := none } ∧
      s'.balances "alice" - stateC2.balances "alice" =
        effect t'.amount t'.type - effect txC2.amount txC2.type) ∧
    effect (603 / 4) TransactionType.income -
        effect (201 / 2) TransactionType.income = 201 / 4 ∧
    effect (201 / 2) TransactionType.expense -
        effect (201 / 2) TransactionType.income = -201 :=
  ⟨by rfl,
   C2_update_balance_adjustment stateC2 "alice" "t1" _ txC2 (by rfl),
   C2_update_balance_adjustment stateC2 "alice" "t1" _ txC2 (by rfl),
   by norm_num [effect], by norm_num [effect]⟩

/-- C3: For every successful transaction creation with amount a > 0, the
user's `total_balance` changes by exactly `effect(a, type)`: up by `a`
for income, down by `a` for expense, unchanged for transfer. -/
theorem C3_create_balance_change (s : State) (uid newId : String)
    (d : TransactionCreate) (hpos : 0 < d.amount)
    (hcat : categoryOk s uid d.category_id = true) :
    ∃ s' t, create_transaction s uid newId d = Except.ok (s', t) ∧
      s'.balances uid = s.balances uid + effect d.amount d.type ∧
      (d.type = TransactionType.income →
        s'.balances uid = s.balances uid + d.amount) ∧
      (d.type = TransactionType.expense →
        s'.balances uid = s.balances uid - d.amount) ∧
      (d.type = TransactionType.transfer →
        s'.balances uid = s.balances uid) := by
  unfold create_transaction
  rw [if_pos hcat]
  refine ⟨_, _, rfl, ?_, ?_, ?_, ?_⟩
  · simp [createBalanceChange_eq_effect]
  · intro h
    simp [createBalanceChange_eq_effect, h, effect]
  · intro h
    simp [createBalanceChange_eq_effect, h, effect, sub_eq_add_neg]
  · intro h
    simp [createBalanceChange_eq_effect, h, effect]

/-- Witness for C3 at income 100.50, expense 50.25 and transfer 33. -/
theorem C3_create_balance_change_witness :
    ((0 : ℚ) < 201 / 2 ∧
      categoryOk exEmpty "alice" none = true ∧
      ∃ s' t, create_transaction exEmpty "alice" "t1"
          { amount := 201 / 2, description := "salary",
            type := TransactionType.income, category_id := none,
            transaction_date := exDate, notes := none } =
            Except.ok (s', t) ∧
        s'.balances "alice" =
          exEmpty.balances "alice" +
            effect (201 / 2) TransactionType.income ∧
        (TransactionType.income = TransactionType.income →
          s'.balances "alice" = exEmpty.balances "alice" + 201 / 2) ∧
        (TransactionType.income = TransactionType.expense →
          s'.balances "alice" = exEmpty.balances "alice" - 201 / 2) ∧
        (TransactionType.income = TransactionType.transfer →
          s'.balances "alice" = exEmpty.balances "alice")) ∧
    ((0 : ℚ) < 201 / 4 ∧
      ∃ s' t, create_transaction exEmpty "alice" "t1"
          { amount := 201 / 4, description := "mercado",
            type := TransactionType.expense, category_id := none,
            transaction_date := exDate, notes := none } =
            Except.ok (s', t) ∧
        s'.balances "alice" =
          exEmpty.balances "alice" +
            effect (201 / 4) TransactionType.expense) ∧
    ((0 : ℚ) < 33 ∧
      ∃ s' t, create_transaction exEmpty "alice" "t1"
          { amount := 33, description := "mover",
            type := TransactionType.transfer, category_id := none,
            transaction_date := exDate, notes := none } =
            Except.ok (s', t) ∧
        s'.balances "alice" = exEmpty.balances "alice") := by
  refine ⟨⟨by norm_num, by rfl, ?_⟩, ⟨by norm_num, ?_⟩, ⟨by norm_num, ?_⟩⟩
  · exact C3_create_balance_change exEmpty "alice" "t1" _ (by norm_num) (by rfl)
  · obtain ⟨s', t, h1, h2, -, -, -⟩ :=
      C3_create_balance_change exEmpty "alice" "t1"
        { amount := 201 / 4, description := "mercado",
          type := TransactionType.expense, category_id := none,
          transaction_date := exDate, notes := none } (by norm_num) (by rfl)
    exact ⟨s', t, h1, h2⟩
  · obtain ⟨s', t, h1, -, -, -, h5⟩ :=
      C3_create_balance_change exEmpty "alice" "t1"
        { amount := 33, description := "mover",
          type := TransactionType.transfer, category_id := none,
          transaction_date := exDate, notes := none } (by norm_num) (by rfl)
    exact ⟨s', t, h1, h5 rfl⟩

/-- C4: For every valid amount and type, creating a transaction and then
soft-deleting that same transaction restores the user's `total_balance`
to exactly its value before the create. -/
theorem C4_delete_inverts_create (s : State) (uid newId : String)
    (d : TransactionCreate) (hpos : 0 < d.amount)
    (hfresh : ∀ x ∈ s.transactions, x.id ≠ newId)
    (hcat : categoryOk s uid d.category_id = true) :
    ∃ s₁ t s₂, create_transaction s uid newId d = Except.ok (s₁, t) ∧
      t.id = newId ∧
      delete_transaction s₁ uid newId = Except.ok s₂ ∧
      s₂.balances uid = s.balances uid := by
  have hnone : s.transactions.find? (txMatch uid newId) = none := by
    rw [List.find?_eq_none]
    intro x hx
    simp only [txMatch, decide_eq_true_eq, not_and]
    intro hxid
    exact absurd hxid (hfresh x hx)
  obtain ⟨s₁, t, hcreate⟩ : ∃ s₁ t,
      create_transaction s uid newId d = Except.ok (s₁, t) := by
    unfold create_transaction
    rw [if_pos hcat]
    exact ⟨_, _, rfl⟩
  obtain ⟨ht, htx, -, hbal⟩ := create_shape s uid newId d s₁ t hcreate
  subst ht
  have hfd : s₁.transactions.find? (txMatch uid newId) = some
      { id := newId, user_id := uid, amount := d.amount,
        description := d.description, type := d.type,
        category_id := d.category_id,
        transaction_date := d.transaction_date, notes := d.notes,
        is_active := true } := by
    rw [htx, find?_append_of_none _ hnone]
    exact List.find?_cons_of_pos _ (by simp [txMatch])
  have hdel : delete_transaction s₁ uid newId = Except.ok
      { transactions := updateFirst (fun x => decide (x.id = newId))
          (fun x => { x with is_active := false }) s₁.transactions,
        categories := s₁.categories,
        balances := fun u =>
          if u = uid then s₁.balances u + balanceReversal d.amount d.type
          else s₁.balances u } := by
    unfold delete_transaction
    rw [hfd]
  refine ⟨s₁, _, _, hcreate, rfl, hdel, ?_⟩
  simp [hbal, createBalanceChange_eq_effect, balanceReversal_eq_neg_effect]

/-- Witness for C4: create then delete an expense of 50.25 on a store
already holding one unrelated transaction. -/
theorem C4_delete_inverts_create_witness :
    ((0 : ℚ) < 201 / 4 ∧
      (∀ x ∈ stateC2.transactions, x.id ≠ "t9") ∧
      categoryOk stateC2 "alice" none = true ∧
      ∃ s₁ t s₂, create_transaction stateC2 "alice" "t9"
          { amount := 201 / 4, description := "mercado",
            type := TransactionType.expense, category_id := none,
            transaction_date := exDate, notes := none } =
            Except.ok (s₁, t) ∧
        t.id = "t9" ∧
        delete_transaction s₁ "alice" "t9" = Except.ok s₂ ∧
        s₂.balances "alice" = stateC2.balances "alice") :=
  ⟨by norm_num, by decide, by rfl,
   C4_delete_inverts_create stateC2 "alice" "t9" _ (by norm_num) (by decide)
     (by rfl)⟩

/-- C8: For every update or soft-delete request naming a transaction id
that does not exist, belongs to a different user, or is already
soft-deleted, the operation fails with `TransactionNotFound` and leaves
every stored record and the user's `total_balance` unchanged. -/
theorem C8_not_found_no_change (s : State) (uid tid : String)
    (d : TransactionUpdate)
    (h : ∀ t ∈ s.transactions, t.id = tid →
      ¬(t.user_id = uid ∧ t.is_active = true)) :
    update_transaction s uid tid d =
        Except.error ApiError.TransactionNotFound ∧
    delete_transaction s uid tid =
        Except.error ApiError.TransactionNotFound ∧
    applyOp s (Op.update uid tid d) = s ∧
    applyOp s (Op.delete uid tid) = s := by
  have hnone : s.transactions.find? (txMatch uid tid) = none := by
    rw [List.find?_eq_none]
    intro x hx
    simp only [txMatch, decide_eq_true_eq]
    rintro ⟨hid, huser, hact⟩
    exact h x hx hid ⟨huser, hact⟩
  have hu : update_transaction s uid tid d =
      Except.error ApiError.TransactionNotFound := by
    unfold update_transaction
    rw [hnone]
  have hd : delete_transaction s uid tid =
      Except.error ApiError.TransactionNotFound := by
    unfold delete_transaction
    rw [hnone]
  exact ⟨hu, hd, by simp [applyOp, hu], by simp [applyOp, hd]⟩

/-- Fixture store for C8: bob owns an active transaction, and alice owns
only a soft-deleted one. -/
def stateC8 : State :=
  { transactions :=
      [{ id := "t9", user_id := "bob", amount := 4, description := "cafe",
         type := TransactionType.expense, category_id := none,
         transaction_date := exDate, notes := none, is_active := true },
       { id := "t2", user_id := "alice", amount := 7, description := "gas",
         type := TransactionType.expense, category_id := none,
         transaction_date := exDate, notes := none, is_active := false }],
    categories := [], balances := fun _ => 0 }

/-- Witness for C8: alice tries to update/delete bob's transaction, her
own soft-deleted transaction, and a nonexistent id. -/
theorem C8_not_found_no_change_witness :
    ((∀ t ∈ stateC8.transactions, t.id = "t9" →
        ¬(t.user_id = "alice" ∧ t.is_active = true)) ∧
      update_transaction stateC8 "alice" "t9"
          { amount := some 1, description := none, type := none,
            category_id := none, transaction_date := none, notes := none } =
        Except.error ApiError.TransactionNotFound ∧
      delete_transaction stateC8 "alice" "t9" =
        Except.error ApiError.TransactionNotFound) ∧
    ((∀ t ∈ stateC8.transactions, t.id = "t2" →
        ¬(t.user_id = "alice" ∧ t.is_active = true)) ∧
      delete_transaction stateC8 "alice" "t2" =
        Except.error ApiError.TransactionNotFound ∧
      applyOp stateC8 (Op.delete "alice" "t2") = stateC8) ∧
    ((∀ t ∈ stateC8.transactions, t.id = "t404" →
        ¬(t.user_id = "alice" ∧ t.is_active = true)) ∧
      update_transaction stateC8 "alice" "t404"
          { amount := none, description := none, type := none,
            category_id := none, transaction_date := none, notes := none } =
        Except.error ApiError.TransactionNotFound) := by
  have h9 := C8_not_found_no_change stateC8 "alice" "t9"
    { amount := some 1, description := none, type := none,
      category_id := none, transaction_date := none, notes := none }
    (by decide)
  have h2 := C8_not_found_no_change stateC8 "alice" "t2"
    { amount := some 1, description := none, type := none,
      category_id := none, transaction_date := none, notes := none }
    (by decide)
  have h404 := C8_not_found_no_change stateC8 "alice" "t404"
    { amount := none, description := none, type := none,
      category_id := none, transaction_date := none, notes := none }
    (by decide)
  exact ⟨⟨by decide, h9.1, h9.2.1⟩, ⟨by decide, h2.2.1, h2.2.2.2⟩,
    ⟨by decide, h404.1⟩⟩

/-- Fixture store for C9: bob owns an active category "c2"; alice owns a
soft-deleted category "c1". -/
def stateC9 : State :=
  { transactions := [],
    categories :=
      [{ id := "c1", user_id := "alice", name := "Food", is_active := false },
       { id := "c2", user_id := "bob", name := "Games", is_active := true }],
    balances := fun _ => 0 }

/-- Fixture create payload for C9's counterexample: an income of 5
supplying the empty-string category id, which is falsy in Python. -/
def dEmptyCat : TransactionCreate :=
  { amount := 5, description := "x", type := TransactionType.income,
    category_id := some "", transaction_date := exDate, notes := none }

/-- Counterexample to C9 as stated: the create supplies
`category_id = ""`, which references no active category owned by alice,
yet the truthiness gate `if transaction_data.category_id:` at
`server.py` line 452 skips validation, so the transaction is persisted
with category id `""` and the balance adjustment is applied — the
create does not fail with `CategoryNotFound`. -/
theorem C9_counterexample :
    (∀ k ∈ stateC9.categories,
      ¬(k.id = "" ∧ k.user_id = "alice" ∧ k.is_active = true)) ∧
    create_transaction stateC9 "alice" "t1" dEmptyCat ≠
      Except.error ApiError.CategoryNotFound ∧
    (applyOp stateC9 (Op.create "alice" "t1" dEmptyCat)).transactions.map
        (fun t => (t.id, t.category_id)) = [("t1", some "")] ∧
    (applyOp stateC9 (Op.create "alice" "t1" dEmptyCat)).balances "alice" =
      stateC9.balances "alice" + effect dEmptyCat.amount dEmptyCat.type := by
  refine ⟨by decide, ?_, by decide, rfl⟩
  intro hcon
  have hsome : (create_transaction stateC9 "alice" "t1"
      dEmptyCat).toOption.isSome = true := by decide
  rw [hcon] at hsome
  simp [Except.toOption] at hsome

/-- C9 amended: For every transaction create request supplying a
NON-EMPTY `category_id` that does not reference an active category owned
by the requesting user, the create fails with `CategoryNotFound` and no
transaction is persisted and no balance adjustment is applied.  (A
supplied empty-string id is falsy in Python, skips validation, and is
persisted — see the counterexample.) -/
theorem C9_category_not_found_blocks_create (s : State)
    (uid newId : String) (d : TransactionCreate) (cid : String)
    (hcid : d.category_id = some cid) (hne : cid ≠ "")
    (h : ∀ k ∈ s.categories,
      ¬(k.id = cid ∧ k.user_id = uid ∧ k.is_active = true)) :
    create_transaction s uid newId d =
        Except.error ApiError.CategoryNotFound ∧
    applyOp s (Op.create uid newId d) = s := by
  have hcat : categoryOk s uid d.category_id = false := by
    rw [hcid]
    have hnone : s.categories.find? (fun c =>
        decide (c.id = cid ∧ c.user_id = uid ∧ c.is_active = true)) = none := by
      rw [List.find?_eq_none]
      intro k hk
      simp only [decide_eq_true_eq]
      rintro ⟨h1, h2, h3⟩
      exact h k hk ⟨h1, h2, h3⟩
    show (if cid = "" then true
      else (s.categories.find? fun c =>
        decide (c.id = cid ∧ c.user_id = uid ∧ c.is_active = true)).isSome)
      = false
    rw [if_neg hne, hnone]
    rfl
  have hc : create_transaction s uid newId d =
      Except.error ApiError.CategoryNotFound := by
    unfold create_transaction
    rw [hcat]
    rfl
  exact ⟨hc, by simp [applyOp, hc]⟩

/-- Witness for the amended C9: creates by alice naming her own
soft-deleted category and bob's category — both non-empty ids — fail. -/
theorem C9_category_not_found_blocks_create_witness :
    (("c1" : String) ≠ "" ∧
      (∀ k ∈ stateC9.categories,
        ¬(k.id = "c1" ∧ k.user_id = "alice" ∧ k.is_active = true)) ∧
      create_transaction stateC9 "alice" "t1"
          { amount := 5, description := "x", type := TransactionType.expense,
            category_id := some "c1", transaction_date := exDate,
            notes := none } =
        Except.error ApiError.CategoryNotFound) ∧
    (("c2" : String) ≠ "" ∧
      (∀ k ∈ stateC9.categories,
        ¬(k.id = "c2" ∧ k.user_id = "alice" ∧ k.is_active = true)) ∧
      create_transaction stateC9 "alice" "t1"
          { amount := 5, description := "x", type := TransactionType.income,
            category_id := some "c2", transaction_date := exDate,
            notes := none } =
        Except.error ApiError.CategoryNotFound ∧
      applyOp stateC9 (Op.create "alice" "t1"
          { amount := 5, description := "x", type := TransactionType.income,
            category_id := some "c2", transaction_date := exDate,
            notes := none }) = stateC9) := by
  have h1 := C9_category_not_found_blocks_create stateC9 "alice" "t1"
    { amount := 5, description := "x", type := TransactionType.expense,
      category_id := some "c1", transaction_date := exDate, notes := none }
    "c1" rfl (by decide) (by decide)
  have h2 := C9_category_not_found_blocks_create stateC9 "alice" "t1"
    { amount := 5, description := "x", type := TransactionType.income,
      category_id := some "c2", transaction_date := exDate, notes := none }
    "c2" rfl (by decide) (by decide)
  exact ⟨⟨by decide, by decide, h1.1⟩, ⟨by decide, by decide, h2.1, h2.2⟩⟩

/-- C10: An update of an existing active transaction that supplies a
`category_id` succeeds and stores it without any category validation:
`update_transaction` never raises `CategoryNotFound`, so any string is
accepted. -/
theorem C10_update_skips_category_validation (s : State)
    (uid tid : String) (d : TransactionUpdate) (t : Transaction)
    (cid : String)
    (hfind : s.transactions.find? (txMatch uid tid) = some t)
    (hcid : d.category_id = some cid) :
    (∃ s' t', update_transaction s uid tid d = Except.ok (s', t') ∧
      t'.category_id = some cid) ∧
    ∀ (s₂ : State) (u₂ t₂ : String) (d₂ : TransactionUpdate),
      update_transaction s₂ u₂ t₂ d₂ ≠
        Except.error ApiError.CategoryNotFound := by
  constructor
  · unfold update_transaction
    rw [hfind]
    exact ⟨_, _, rfl, by simp [applyUpdate, hcid]⟩
  · intro s₂ u₂ t₂ d₂
    unfold update_transaction
    rcases s₂.transactions.find? (txMatch u₂ t₂) with _ | t₀ <;> simp

/-- Witness for C10: alice updates her transaction to point at the
nonexistent category id "ghost"; the update succeeds and stores it. -/
theorem C10_update_skips_category_validation_witness :
    (stateC2.transactions.find? (txMatch "alice" "t1") = some txC2) ∧
    (∃ s' t', update_transaction stateC2 "alice" "t1"
        { amount := none, description := none, type := none,
          category_id := some "ghost", transaction_date := none,
          notes := none } = Except.ok (s', t') ∧
      t'.category_id = some "ghost") ∧
    (∀ (s₂ : State) (u₂ t₂ : String) (d₂ : TransactionUpdate),
      update_transaction s₂ u₂ t₂ d₂ ≠
        Except.error ApiError.CategoryNotFound) ∧
    categoryOk stateC2 "alice" (some "ghost") = false := by
  have h := C10_update_skips_category_validation stateC2 "alice" "t1"
    { amount := none, description := none, type := none,
      category_id := some "ghost", transaction_date := none, notes := none }
    txC2 "ghost" (by rfl) rfl
  exact ⟨by rfl, h.1, h.2, by rfl⟩

/-- C5: The monthly summary selects exactly the user's active
transactions dated in the half-open window
`[first instant of the month, first instant of the next month)` — with
December rolling into January of `year+1` — and returns the income sum,
expense sum, their difference, and the count of all selected
transactions including transfers; an empty selection yields the all-zero
record rather than an error. -/
theorem C5_monthly_summary (s : State) (uid : String) (m y : ℕ) :
    (∀ t, t ∈ monthTxs s uid m y ↔
      t ∈ s.transactions ∧ t.user_id = uid ∧ t.is_active = true ∧
        DateTime.Le (monthStart y m) t.transaction_date ∧
        DateTime.Lt t.transaction_date (monthEnd y m)) ∧
    DateTime.Le (monthStart y m) (monthStart y m) ∧
    ¬ DateTime.Lt (monthEnd y m) (monthEnd y m) ∧
    (m = 12 → monthEnd y m = monthStart (y + 1) 1) ∧
    (m ≠ 12 → monthEnd y m = monthStart y (m + 1)) ∧
    (get_financial_summary s uid m y).total_income =
      (((monthTxs s uid m y).filter fun t =>
        decide (t.type = TransactionType.income)).map fun t => t.amount).sum ∧
    (get_financial_summary s uid m y).total_expense =
      (((monthTxs s uid m y).filter fun t =>
        decide (t.type = TransactionType.expense)).map fun t => t.amount).sum ∧
    (get_financial_summary s uid m y).net_balance =
      (get_financial_summary s uid m y).total_income -
        (get_financial_summary s uid m y).total_expense ∧
    (get_financial_summary s uid m y).transaction_count =
      (monthTxs s uid m y).length ∧
    (monthTxs s uid m y = [] →
      get_financial_summary s uid m y =
        { total_income := 0, total_expense := 0, net_balance := 0,
          transaction_count := 0, month := m, year := y }) := by
  refine ⟨?_, ?_, ?_, ?_, ?_, rfl, rfl, rfl, rfl, ?_⟩
  · intro t
    rw [monthTxs, List.mem_filter]
    simp only [Bool.and_eq_true, decide_eq_true_eq, DateTime.leb_iff,
      DateTime.ltb_iff]
    tauto
  · exact Or.inr rfl
  · simp [DateTime.Lt]
  · intro hm
    simp [monthEnd, monthStart, hm]
  · intro hm
    simp [monthEnd, monthStart, hm]
  · intro h
    simp [get_financial_summary, h]

/-- Fixture store for C5: alice has an active income dated exactly on
the first instant of January 2024, an active expense dated on the first
instant of February 2024, a transfer inside January, a soft-deleted
January expense, and one of bob's January transactions. -/
def stateC5 : State :=
  { transactions :=
      [{ id := "t1", user_id := "alice", amount := 100, description := "a",
         type := TransactionType.income, category_id := none,
         transaction_date :=
           { year := 2024, month := 1, day := 1, hour := 0, minute := 0,
             second := 0 },
         notes := none, is_active := true },
       { id := "t2", user_id := "alice", amount := 40, description := "b",
         type := TransactionType.expense, category_id := none,
         transaction_date :=
           { year := 2024, month := 2, day := 1, hour := 0, minute := 0,
             second := 0 },
         notes := none, is_active := true },
       { id := "t3", user_id := "alice", amount := 7, description := "c",
         type := TransactionType.transfer, category_id := none,
         transaction_date := exDate, notes := none, is_active := true },
       { id := "t4", user_id := "alice", amount := 9, description := "d",
         type := TransactionType.expense, category_id := none,
         transaction_date := exDate, notes := none, is_active := false },
       { id := "t5", user_id := "bob", amount := 5, description := "e",
         type := TransactionType.expense, category_id := none,
         transaction_date := exDate, notes := none, is_active := true }],
    categories := [], balances := fun _ => 0 }

/-- Witness for C5: January 2024 for alice selects the boundary income
and the transfer only, and an empty month returns the zero record. -/
theorem C5_monthly_summary_witness :
    ((get_financial_summary stateC5 "alice" 1 2024).total_income =
      (((monthTxs stateC5 "alice" 1 2024).filter fun t =>
        decide (t.type = TransactionType.income)).map fun t => t.amount).sum) ∧
    ((get_financial_summary stateC5 "alice" 1 2024).transaction_count =
      (monthTxs stateC5 "alice" 1 2024).length) ∧
    ((monthTxs stateC5 "alice" 1 2024).map fun t => t.id) = ["t1", "t3"] ∧
    (monthTxs stateC5 "alice" 3 2024 = []) ∧
    get_financial_summary stateC5 "alice" 3 2024 =
      { total_income := 0, total_expense := 0, net_balance := 0,
        transaction_count := 0, month := 3, year := 2024 } := by
  have h := C5_monthly_summary stateC5 "alice" 1 2024
  have h3 := C5_monthly_summary stateC5 "alice" 3 2024
  exact ⟨h.2.2.2.2.2.1, h.2.2.2.2.2.2.2.2.1, by decide, by decide,
    h3.2.2.2.2.2.2.2.2.2 (by decide)⟩

/-- Stable insertion produces a permutation of consing. -/
lemma insertDesc_perm (x : CategoryExpense) (l : List CategoryExpense) :
    (insertDesc x l).Perm (x :: l) := by
  induction l with
  | nil => exact List.Perm.refl _
  | cons y ys ih =>
      by_cases hle : y.total_amount ≤ x.total_amount
      · rw [insertDesc, if_pos hle]
      · rw [insertDesc, if_neg hle]
        exact (ih.cons y).trans (List.Perm.swap x y ys)

/-- The stable sort is a permutation of its input. -/
lemma sortDesc_perm (l : List CategoryExpense) : (sortDesc l).Perm l := by
  induction l with
  | nil => exact List.Perm.refl _
  | cons x xs ih => exact (insertDesc_perm x (sortDesc xs)).trans (ih.cons x)

/-- Stable insertion preserves descending order by amount. -/
lemma insertDesc_pairwise (x : CategoryExpense) (l : List CategoryExpense)
    (h : l.Pairwise fun a b => b.total_amount ≤ a.total_amount) :
    (insertDesc x l).Pairwise fun a b => b.total_amount ≤ a.total_amount := by
  induction l with
  | nil => exact List.pairwise_singleton _ x
  | cons y ys ih =>
      rw [List.pairwise_cons] at h
      by_cases hle : y.total_amount ≤ x.total_amount
      · rw [insertDesc, if_pos hle, List.pairwise_cons]
        refine ⟨?_, List.pairwise_cons.mpr h⟩
        intro z hz
        rcases List.mem_cons.mp hz with hz | hz
        · rw [hz]
          exact hle
        · exact (h.1 z hz).trans hle
      · rw [insertDesc, if_neg hle, List.pairwise_cons]
        refine ⟨?_, ih h.2⟩
        intro z hz
        rcases List.mem_cons.mp ((insertDesc_perm x ys).mem_iff.mp hz) with
          hz | hz
        · rw [hz]
          exact le_of_lt (lt_of_not_le hle)
        · exact h.1 z hz

/-- The sorted breakdown is in descending order of total amount. -/
lemma sortDesc_pairwise (l : List CategoryExpense) :
    (sortDesc l).Pairwise fun a b => b.total_amount ≤ a.total_amount := by
  induction l with
  | nil => exact List.Pairwise.nil
  | cons x xs ih => exact insertDesc_pairwise x (sortDesc xs) ih

/-- Stability of insertion: among entries of any fixed amount, the
inserted element lands in front and the rest keep their order. -/
lemma insertDesc_filter (x : CategoryExpense) (l : List CategoryExpense)
    (q : ℚ) :
    (insertDesc x l).filter (fun e => decide (e.total_amount = q)) =
      if x.total_amount = q then
        x :: l.filter (fun e => decide (e.total_amount = q))
      else l.filter (fun e => decide (e.total_amount = q)) := by
  induction l with
  | nil =>
      rw [insertDesc]
      by_cases hq : x.total_amount = q
      · rw [if_pos hq]
        simp [List.filter, hq]
      · rw [if_neg hq]
        simp [List.filter, hq]
  | cons y ys ih =>
      by_cases hle : y.total_amount ≤ x.total_amount
      · rw [insertDesc, if_pos hle]
        by_cases hq : x.total_amount = q
        · rw [if_pos hq]
          simp [List.filter_cons, hq]
        · rw [if_neg hq]
          simp [List.filter_cons, hq]
      · rw [insertDesc, if_neg hle]
        have hxq : x.total_amount = q → ¬ y.total_amount = q := by
          intro hx hy
          exact hle (le_of_eq (hy.trans hx.symm))
        by_cases hyq : y.total_amount = q
        · have hxne : ¬ x.total_amount = q := fun hx => hxq hx hyq
          rw [if_neg hxne]
          rw [List.filter_cons_of_pos (by simp [hyq]),
            List.filter_cons_of_pos (by simp [hyq]), ih, if_neg hxne]
        · rw [List.filter_cons_of_neg (by simp [hyq]),
            List.filter_cons_of_neg (by simp [hyq]), ih]

/-- Stability of the sort: filtering at any fixed amount returns the
entries in their original order. -/
lemma sortDesc_filter (l : List CategoryExpense) (q : ℚ) :
    (sortDesc l).filter (fun e => decide (e.total_amount = q)) =
      l.filter (fun e => decide (e.total_amount = q)) := by
  induction l with
  | nil => rfl
  | cons x xs ih =>
      rw [sortDesc, insertDesc_filter, ih]
      by_cases hq : x.total_amount = q
      · rw [if_pos hq, List.filter_cons_of_pos (by simp [hq])]
      · rw [if_neg hq, List.filter_cons_of_neg (by simp [hq])]

/-- Distributing a common division and scaling over the sum of the
grouped amounts. -/
lemma sum_map_div_mul (l : List (Option String × ℚ × ℕ)) (T : ℚ) :
    (l.map fun g => g.2.1 / T * 100).sum =
      (l.map fun g => g.2.1).sum / T * 100 := by
  induction l with
  | nil => simp
  | cons a l ih =>
      rw [List.map_cons, List.sum_cons, List.map_cons, List.sum_cons, ih]
      ring

/-- C6: In the category breakdown, each group's percentage equals
`group_amount / total_expense * 100` and is 0 when `total_expense` is 0;
the list is sorted by total amount descending with ties in original
grouping order (stable sort); the percentages sum to exactly 100
whenever `total_expense > 0`; and an empty expense window yields an
empty list with `total_expense = 0`. -/
theorem C6_category_breakdown (s : State) (uid : String) (m y : ℕ) :
    ((get_expenses_by_category s uid m y).expenses.map
        fun e => e.percentage) =
      ((get_expenses_by_category s uid m y).expenses.map fun e =>
        if 0 < (get_expenses_by_category s uid m y).total_expense then
          e.total_amount /
            (get_expenses_by_category s uid m y).total_expense * 100
        else 0) ∧
    (get_expenses_by_category s uid m y).expenses.Pairwise
      (fun a b => b.total_amount ≤ a.total_amount) ∧
    (∀ q : ℚ, (get_expenses_by_category s uid m y).expenses.filter
        (fun e => decide (e.total_amount = q)) =
      (rawExpenses s uid m y).filter
        (fun e => decide (e.total_amount = q))) ∧
    (0 < (get_expenses_by_category s uid m y).total_expense →
      ((get_expenses_by_category s uid m y).expenses.map
        fun e => e.percentage).sum = 100) ∧
    (expenseTxs s uid m y = [] →
      (get_expenses_by_category s uid m y).expenses = [] ∧
      (get_expenses_by_category s uid m y).total_expense = 0) := by
  refine ⟨?_, sortDesc_pairwise _, fun q => sortDesc_filter _ q, ?_, ?_⟩
  · refine List.map_congr_left ?_
    intro e he
    rcases List.mem_map.mp ((sortDesc_perm _).mem_iff.mp he) with ⟨g, hg, rfl⟩
    rfl
  · intro hpos
    have hT : (0 : ℚ) < totalExpense s uid m y := hpos
    have hperm : ((get_expenses_by_category s uid m y).expenses.map
        fun e => e.percentage).sum =
        ((rawExpenses s uid m y).map fun e => e.percentage).sum :=
      ((sortDesc_perm (rawExpenses s uid m y)).map fun e => e.percentage).sum_eq
    rw [hperm]
    have hraw : (rawExpenses s uid m y).map (fun e => e.percentage) =
        (groupTotals s uid m y).map
          (fun g => g.2.1 / totalExpense s uid m y * 100) := by
      unfold rawExpenses
      rw [List.map_map]
      exact List.map_congr_left fun g _ => by
        simp [Function.comp, if_pos hT]
    rw [hraw, sum_map_div_mul]
    show totalExpense s uid m y / totalExpense s uid m y * 100 = 100
    rw [div_self (ne_of_gt hT)]
    norm_num
  · intro h
    constructor <;>
      simp [get_expenses_by_category, rawExpenses, groupTotals,
        totalExpense, sortDesc, h]

/-- Fixture store for C6: alice has one active category and two January
2024 expenses, one categorised (30) and one uncategorised (10). -/
def stateC6 : State :=
  { transactions :=
      [{ id := "t1", user_id := "alice", amount := 30, description := "a",
         type := TransactionType.expense, category_id := some "c1",
         transaction_date := exDate, notes := none, is_active := true },
       { id := "t2", user_id := "alice", amount := 10, description := "b",
         type := TransactionType.expense, category_id := none,
         transaction_date := exDate, notes := none, is_active := true }],
    categories :=
      [{ id := "c1", user_id := "alice", name := "Food",
         is_active := true }],
    balances := fun _ => 0 }

/-- Witness for C6: with expenses 30 and 10 the total is 40 > 0 and the
percentages sum to 100; March 2024 holds no expenses and produces the
empty breakdown. -/
theorem C6_category_breakdown_witness :
    (0 < (get_expenses_by_category stateC6 "alice" 1 2024).total_expense) ∧
    ((get_expenses_by_category stateC6 "alice" 1 2024).expenses.map
      fun e => e.percentage).sum = 100 ∧
    expenseTxs stateC6 "alice" 3 2024 = [] ∧
    (get_expenses_by_category stateC6 "alice" 3 2024).expenses = [] ∧
    (get_expenses_by_category stateC6 "alice" 3 2024).total_expense = 0 := by
  have hg : groupTotals stateC6 "alice" 1 2024 =
      [(some "c1", (30 : ℚ), 1), (none, (10 : ℚ), 1)] := by decide
  have hpos : 0 <
      (get_expenses_by_category stateC6 "alice" 1 2024).total_expense := by
    show (0 : ℚ) < totalExpense stateC6 "alice" 1 2024
    rw [totalExpense, hg]
    norm_num
  have hempty : expenseTxs stateC6 "alice" 3 2024 = [] := by decide
  have h1 := C6_category_breakdown stateC6 "alice" 1 2024
  have h3 := C6_category_breakdown stateC6 "alice" 3 2024
  exact ⟨hpos, h1.2.2.2.1 hpos, hempty, (h3.2.2.2.2 hempty).1,
    (h3.2.2.2.2 hempty).2⟩

/-- Fixture store for C7: alice's category "c1" (named "Food") has been
soft-deleted, yet her active January 2024 expense of 30 still references
it; a second expense of 10 has no category. -/
def stateC7 : State :=
  { transactions :=
      [{ id := "t1", user_id := "alice", amount := 30, description := "a",
         type := TransactionType.expense, category_id := some "c1",
         transaction_date := exDate, notes := none, is_active := true },
       { id := "t2", user_id := "alice", amount := 10, description := "b",
         type := TransactionType.expense, category_id := none,
         transaction_date := exDate, notes := none, is_active := true }],
    categories :=
      [{ id := "c1", user_id := "alice", name := "Food",
         is_active := false }],
    balances := fun _ => 0 }

/-- Counterexample to C7 as stated: the expense referencing the
soft-deleted category "c1" is reported under its own bucket with the
deleted category's stored name "Food", not under the "uncategorized"
bucket with display name "Sem categoria" — the name lookup at lines
638-642 does not filter on `is_active`. -/
theorem C7_counterexample :
    ((get_expenses_by_category stateC7 "alice" 1 2024).expenses.map
        fun e => (e.category_id, e.category_name)) =
      [(some "c1", "Food"), (none, "Sem categoria")] ∧
    "Food" ≠ "Sem categoria" := by
  constructor
  · decide
  · decide

/-- C7 amended: every reported bucket's display name is the category
name resolution of its bucket id; a bucket with no category resolves to
"Sem categoria"; a bucket whose id matches none of the user's category
records resolves to "Sem categoria"; and a bucket whose id matches one
of the user's category records — soft-deleted or not — resolves to that
record's stored name. -/
theorem C7_amended_uncategorized (s : State) (uid : String) (m y : ℕ) :
    ((get_expenses_by_category s uid m y).expenses.map
        fun e => e.category_name) =
      ((get_expenses_by_category s uid m y).expenses.map fun e =>
        categoryName s.categories uid e.category_id) ∧
    categoryName s.categories uid none = "Sem categoria" ∧
    (∀ c : String,
      (s.categories.filter fun k => decide (k.user_id = uid)).find?
          (fun k => decide (k.id = c)) = none →
        categoryName s.categories uid (some c) = "Sem categoria") ∧
    (∀ (c : String) (k : Category),
      (s.categories.filter fun k => decide (k.user_id = uid)).find?
          (fun k => decide (k.id = c)) = some k →
        categoryName s.categories uid (some c) = k.name) := by
  refine ⟨?_, rfl, ?_, ?_⟩
  · refine List.map_congr_left ?_
    intro e he
    rcases List.mem_map.mp ((sortDesc_perm _).mem_iff.mp he) with ⟨g, hg, rfl⟩
    rfl
  · intro c hfind
    show (match (s.categories.filter fun k =>
        decide (k.user_id = uid)).find? (fun k => decide (k.id = c)) with
      | some k => k.name
      | none => "Sem categoria") = "Sem categoria"
    rw [hfind]
  · intro c k hfind
    show (match (s.categories.filter fun k =>
        decide (k.user_id = uid)).find? (fun k => decide (k.id = c)) with
      | some k => k.name
      | none => "Sem categoria") = k.name
    rw [hfind]

/-- Witness for the amended C7 at the fixture store: the unknown id
"ghost" resolves to "Sem categoria", while "c1" resolves to the
soft-deleted record's name "Food". -/
theorem C7_amended_uncategorized_witness :
    ((stateC7.categories.filter fun k => decide (k.user_id = "alice")).find?
        (fun k => decide (k.id = "ghost")) = none) ∧
    categoryName stateC7.categories "alice" (some "ghost") =
      "Sem categoria" ∧
    ((stateC7.categories.filter fun k => decide (k.user_id = "alice")).find?
        (fun k => decide (k.id = "c1")) =
      some { id := "c1", user_id := "alice", name := "Food",
             is_active := false }) ∧
    categoryName stateC7.categories "alice" (some "c1") = "Food" := by
  have h := C7_amended_uncategorized stateC7 "alice" 1 2024
  exact ⟨by decide, h.2.2.1 "ghost" (by decide),
    by decide, h.2.2.2 "c1"
      { id := "c1", user_id := "alice", name := "Food", is_active := false }
      (by decide)⟩

end Credix
